import Mathlib

/-!
# Verification of the `autodiscover` cluster target-discovery core

A shallow embedding of the Go package `autodiscover` (file with
`FindTestTarget`, `GetNodesList`, `FindTestDeployments`, `buildPodUnderTest`,
`buildOperatorFromCSVResource`, `getClusterCrdNames`, `FindTestCrdNames`).

External collaborators (the Kubernetes query client, the interactive command
executor, the global test configuration store) are modelled as an explicit
environment record whose fields hold the responses those collaborators give
during one discovery call; fallible Go calls are embedded as `Except`
results, and the Go slice-index panic in `buildOperatorFromCSVResource`
is embedded as an `Option` result (`none` = panic).
-/

namespace Autodiscover

/-- A small JSON value model, sufficient for annotation payloads
(JSON-encoded lists of strings) and the CRD-name listing. -/
inductive Json where
  | str : String → Json
  | num : Int → Json
  | bool : Bool → Json
  | null : Json
  | arr : List Json → Json
  deriving BEq

/-- The two annotation-resolution failures the spec distinguishes. -/
inductive AnnErr where
  | missing : AnnErr
  | malformed : AnnErr
  deriving DecidableEq

/-- Extract a string from a JSON value, if it is one. -/
def asString : Json → Option String
  | .str s => some s
  | _ => none

/-- Extract a list of strings from a list of JSON values, failing if any
element is not a string. -/
def asStrings : List Json → Option (List String)
  | [] => some []
  | j :: rest =>
    match asString j with
    | none => none
    | some s =>
      match asStrings rest with
      | none => none
      | some l => some (s :: l)

/-- Extract a list of strings from a JSON value: it must be a JSON array
whose elements are all strings. -/
def asStringList : Json → Option (List String)
  | .arr xs => asStrings xs
  | _ => none

/-- Modelled from the spec: the Annotation Resolver (`GetAnnotationValue` on
pod/CSV resources is not under `src/`). Per the spec, the annotation value is
expected to be a JSON-encoded list of strings; a missing annotation, invalid
JSON, or wrong shape all yield a typed failure, and the resolver never
returns a best-guess partial value. -/
def resolveAnnotation (annots : List (String × Json)) (key : String) :
    Except AnnErr (List String) :=
  match annots.lookup key with
  | none => .error .missing
  | some v =>
    match asStringList v with
    | none => .error .malformed
    | some l => .ok l

/-- Modelled from the spec: the fixed vendor label/annotation key space shared
by all test-network-function labels and annotations (`tnfLabelPrefix` is not
under `src/`). -/
def tnfLabelPfx : String := "test-network-function.com"

/-- Modelled from the spec: the wildcard label value meaning "any value for
this key" (`anyLabelValue` is not under `src/`). -/
def anyLabelValue : String := ""

/-- Modelled from the spec: all three annotation keys share one
prefix-construction rule (`buildAnnotationName` is not under `src/`). -/
def buildAnnotationName (name : String) : String := tnfLabelPfx ++ "/" ++ name

def operatorTestsAnnotationName : String := buildAnnotationName "operator_tests"

def subscriptionNameAnnotationName : String := buildAnnotationName "subscription_name"

def podTestsAnnotationName : String := buildAnnotationName "host_resource_tests"

def operatorLabelName : String := "operator"

def skipConnectivityTestsLabel : String := "skip_connectivity_tests"

/-- Node role labels from `configsections` (`MasterLabel`, `WorkerLabel`). -/
def MasterLabel : String := "master"

def WorkerLabel : String := "worker"

/-- `configsections.Label`: a {prefix, name, value} selector triple. -/
structure Label where
  pfx : String
  name : String
  value : String
  deriving DecidableEq

/-- Resource metadata: namespace, name and the annotation map. -/
structure Metadata where
  ns : String
  name : String
  annots : List (String × Json)

/-- Pod spec fields used by the builders: service account and the container
names (the Go code uses only `len(pr.Spec.Containers)` plus one container
config entry per container). -/
structure PodSpec where
  serviceAccount : String
  containers : List String

/-- A raw pod resource as returned by the label query client. -/
structure PodResource where
  metadata : Metadata
  spec : PodSpec

/-- `pr.GetAnnotationValue(name, &v)` on a pod resource. -/
def PodResource.GetAnnotationValue (pr : PodResource) (key : String) :
    Except AnnErr (List String) :=
  resolveAnnotation pr.metadata.annots key

/-- A raw cluster-service-version resource. -/
structure CSVResource where
  metadata : Metadata

/-- `csv.GetAnnotationValue(name, &v)` on a CSV resource. -/
def CSVResource.GetAnnotationValue (csv : CSVResource) (key : String) :
    Except AnnErr (List String) :=
  resolveAnnotation csv.metadata.annots key

/-- A raw deployment resource (`GetName`, `GetNamespace`, `GetReplicas`). -/
structure DeploymentResource where
  name : String
  ns : String
  replicas : Nat

/-- `configsections.Pod`. -/
structure Pod where
  ns : String
  name : String
  serviceAccount : String
  containerCount : Nat
  tests : List String
  deriving DecidableEq

/-- `configsections.Operator`. -/
structure Operator where
  name : String
  ns : String
  subscriptionName : String
  tests : List String
  deriving DecidableEq

/-- `configsections.Deployment`. -/
structure Deployment where
  name : String
  ns : String
  replicas : Nat
  deriving DecidableEq

/-- `configsections.Node`: a node name with its accumulated role labels. -/
structure Node where
  name : String
  labels : List String
  deriving DecidableEq

/-- One per-container configuration entry. -/
structure ContainerConfig where
  ns : String
  podName : String
  containerName : String
  deriving DecidableEq

/-- A container identifier in the connectivity-test exclusion list. -/
structure ContainerIdentifier where
  ns : String
  podName : String
  containerName : String
  deriving DecidableEq

/-- The Go `map[string]configsections.Node`, as a lookup function. -/
abbrev NodeMap : Type := String → Option Node

/-- The freshly made empty node map (`make(map[string]configsections.Node)`). -/
def emptyNodeMap : NodeMap := fun _ => none

/-- Keyed update `m[k] = v` on a Go map. -/
def NodeMap.insert (m : NodeMap) (k : String) (v : Node) : NodeMap :=
  fun x => if x = k then some v else m x

/-- `configsections.TestTarget`: the mutable catalog. -/
structure TestTarget where
  PodsUnderTest : List Pod
  ContainerConfigList : List ContainerConfig
  Operators : List Operator
  DeploymentsUnderTest : List Deployment
  Nodes : NodeMap
  ExcludeContainersFromConnectivityTests : List ContainerIdentifier

/-- An empty starting catalog. -/
def emptyTarget : TestTarget where
  PodsUnderTest := []
  ContainerConfigList := []
  Operators := []
  DeploymentsUnderTest := []
  Nodes := emptyNodeMap
  ExcludeContainersFromConnectivityTests := []

/-- The responses of all external collaborators during one discovery call:
every fallible query of the Go code is a field here, so that the embedded
functions are total functions of this record. -/
structure Env where
  /-- `GetPodsByLabel(label, namespace)`. -/
  podsByLabel : Label → String → Except String (List PodResource)
  /-- `getContainerIdentifiersByLabel(label, namespace)`: the Go call site
  uses the returned identifiers even when the error is non-nil, so the
  response is a pair of the identifiers and an optional error. -/
  containerIdsByLabel : Label → String → List ContainerIdentifier × Option String
  /-- `GetCSVsByLabel(labelName, labelValue, namespace)`. -/
  csvsByLabel : String → String → String → Except String (List CSVResource)
  /-- `GetTargetDeploymentsByNamespace(namespace, label)`. -/
  deploymentsByNamespace : String → Label → Except String (List DeploymentResource)
  /-- The node-names query keyed by role label (the `nodenames` tester run
  through the interactive session). -/
  nodeNamesByLabel : String → Except String (List String)
  /-- `testcases.GetConfiguredPodTests()`: the global pod-test-group names. -/
  configuredPodTests : List String
  /-- `getConfiguredOperatorTests()` after its own error handling: the global
  operator-test-group names (empty on config-load failure). -/
  configuredOperatorTests : List String

/-- `buildPodUnderTest`: copies namespace/name/serviceAccount/containerCount,
then resolves the pod-tests annotation, falling back to the globally
configured pod tests on resolution failure. -/
def buildPodUnderTest (configuredPodTests : List String) (pr : PodResource) : Pod :=
  { ns := pr.metadata.ns
    name := pr.metadata.name
    serviceAccount := pr.spec.serviceAccount
    containerCount := pr.spec.containers.length
    tests :=
      match pr.GetAnnotationValue podTestsAnnotationName with
      | .error _ => configuredPodTests
      | .ok tests => tests }

/-- Modelled from the spec: `buildContainersFromPodResource` is not under
`src/`; per the spec it derives one per-container configuration entry per
container in the pod spec. -/
def buildContainersFromPodResource (pr : PodResource) : List ContainerConfig :=
  pr.spec.containers.map fun c =>
    { ns := pr.metadata.ns, podName := pr.metadata.name, containerName := c }

/-- `buildOperatorFromCSVResource`: name/namespace copied, tests resolved with
fallback to the configured operator tests, and the subscription name taken
from index 0 of the resolved `subscription_name` annotation list when
resolution succeeds (left as the zero value `""` when it fails). The Go code
indexes `subscriptionName[0]` without a length check; the out-of-range access
on an empty resolved list is embedded as `none`. -/
def buildOperatorFromCSVResource (configuredOperatorTests : List String)
    (csv : CSVResource) : Option Operator :=
  let tests :=
    match csv.GetAnnotationValue operatorTestsAnnotationName with
    | .error _ => configuredOperatorTests
    | .ok tests => tests
  match csv.GetAnnotationValue subscriptionNameAnnotationName with
  | .error _ =>
    some { name := csv.metadata.name, ns := csv.metadata.ns,
           subscriptionName := "", tests := tests }
  | .ok subscriptionName =>
    match subscriptionName with
    | [] => none
    | s :: _ =>
      some { name := csv.metadata.name, ns := csv.metadata.ns,
             subscriptionName := s, tests := tests }

/-- The master-loop body of `GetNodesList`: insert the node name with the
master label. -/
def masterStep (m : NodeMap) (n : String) : NodeMap :=
  NodeMap.insert m n { name := n, labels := [MasterLabel] }

/-- The worker-loop body of `GetNodesList`: a name already in the map
accumulates the worker label onto its entry, a new name is inserted with
just the worker label. -/
def workerStep (m : NodeMap) (n : String) : NodeMap :=
  match m n with
  | some node => NodeMap.insert m n { node with labels := node.labels ++ [WorkerLabel] }
  | none => NodeMap.insert m n { name := n, labels := [WorkerLabel] }

/-- `GetNodesList`, as a function of the two role queries' results: the master
query is run first; on its failure the function returns the (empty) map at
once. Otherwise every master node name is inserted with the master label,
then the worker query is run; on its failure the master-only map is returned,
else the worker loop runs over the worker node names. -/
def GetNodesList (masterResult workerResult : Except String (List String)) :
    NodeMap :=
  let nodes : NodeMap := emptyNodeMap
  match masterResult with
  | .error _ => nodes
  | .ok masterNames =>
    let nodes := masterNames.foldl masterStep nodes
    match workerResult with
    | .error _ => nodes
    | .ok workerNames => workerNames.foldl workerStep nodes

/-- `FindTestDeployments`: for each target label, query the deployments in
the namespace; on a query failure that label contributes nothing (logged),
else one `Deployment` per returned resource is appended. -/
def FindTestDeployments (env : Env) (targetLabels : List Label) (ns : String) :
    List Deployment :=
  targetLabels.foldl
    (fun deployments label =>
      match env.deploymentsByNamespace ns label with
      | .error _ => deployments
      | .ok deploymentResourceList =>
        deployments ++ deploymentResourceList.map fun dr =>
          { name := dr.name, ns := dr.ns, replicas := dr.replicas })
    []

/-- The per-pod body of the pod loop in `FindTestTarget`: append the built
pod to `PodsUnderTest` and its container entries to `ContainerConfigList`. -/
def podItemStep (configuredPodTests : List String) (t : TestTarget)
    (pr : PodResource) : TestTarget :=
  { t with
    PodsUnderTest := t.PodsUnderTest ++ [buildPodUnderTest configuredPodTests pr]
    ContainerConfigList := t.ContainerConfigList ++ buildContainersFromPodResource pr }

/-- The per-label body of the pod loop in `FindTestTarget`: on query success
run the per-pod body over the returned pods, on failure leave the catalog
unchanged (logged). -/
def podLabelStep (env : Env) (ns : String) (t : TestTarget) (l : Label) :
    TestTarget :=
  match env.podsByLabel l ns with
  | .ok pods => pods.foldl (podItemStep env.configuredPodTests) t
  | .error _ => t

/-- The operator loop of `FindTestTarget`: build each CSV's operator in
order; a panic in any build (see `buildOperatorFromCSVResource`) aborts the
whole construction. -/
def buildOperators (configuredOperatorTests : List String) :
    List CSVResource → Option (List Operator)
  | [] => some []
  | csv :: rest =>
    match buildOperatorFromCSVResource configuredOperatorTests csv with
    | none => none
    | some op =>
      match buildOperators configuredOperatorTests rest with
      | none => none
      | some ops => some (op :: ops)

/-- The fixed label used for the connectivity-test exclusion query. -/
def skipLabel : Label :=
  { pfx := tnfLabelPfx, name := skipConnectivityTestsLabel, value := anyLabelValue }

/-- `FindTestTarget`: pods (and container configs) per label, then the
exclusion list (its identifiers are assigned even when the query also
reports an error), then operators from CSVs, then deployments per label,
then the node map. `none` embeds the Go panic reachable through
`buildOperatorFromCSVResource`; on any query failure the step is skipped
and discovery continues. -/
def FindTestTarget (env : Env) (labels : List Label) (target : TestTarget)
    (ns : String) : Option TestTarget :=
  let target := labels.foldl (podLabelStep env ns) target
  let target :=
    { target with
      ExcludeContainersFromConnectivityTests := (env.containerIdsByLabel skipLabel ns).1 }
  let afterOperators :=
    match env.csvsByLabel operatorLabelName anyLabelValue ns with
    | .ok csvs =>
      match buildOperators env.configuredOperatorTests csvs with
      | none => none
      | some ops => some { target with Operators := target.Operators ++ ops }
    | .error _ => some target
  match afterOperators with
  | none => none
  | some target =>
    let target :=
      { target with
        DeploymentsUnderTest :=
          target.DeploymentsUnderTest ++ FindTestDeployments env labels ns }
    some { target with
           Nodes := GetNodesList (env.nodeNamesByLabel MasterLabel)
                      (env.nodeNamesByLabel WorkerLabel) }

/-- `getClusterCrdNames`: the CRD-listing command's output text is
unmarshalled as a JSON array of strings; the raw listing is modelled as
`Option Json` (`none` = output that is not valid JSON), and any decode
failure is returned as an error. -/
def getClusterCrdNames (out : Option Json) : Except String (List String) :=
  match out with
  | none => .error "invalid JSON"
  | some j =>
    match asStringList j with
    | none => .error "cannot unmarshal into []string"
    | some crdNamesList => .ok crdNamesList

/-- `configsections.CrdFilter`. -/
structure CrdFilter where
  nameSuffix : String

/-- `strings.HasSuffix`, on the character sequences of the two strings. -/
def hasSuffix (s pat : String) : Bool := pat.data.isSuffixOf s.data

/-- The inner filter loop of `FindTestCrdNames`: try each configured filter
in order and stop at the first whose suffix matches (the Go `break`). -/
def matchesAnyFilter (crdFilters : List CrdFilter) (crdName : String) : Bool :=
  match crdFilters with
  | [] => false
  | crdFilter :: rest =>
    if hasSuffix crdName crdFilter.nameSuffix then true
    else matchesAnyFilter rest crdName

/-- The outer loop of `FindTestCrdNames` over the decoded cluster CRD names:
append each name once, on its first matching filter. -/
def filterCrdNames (clusterCrdNames : List String) (crdFilters : List CrdFilter) :
    List String :=
  clusterCrdNames.foldl
    (fun targetCrdNames crdName =>
      if matchesAnyFilter crdFilters crdName then targetCrdNames ++ [crdName]
      else targetCrdNames)
    []

/-- `FindTestCrdNames`: on a decode failure of the cluster listing return the
empty list (logged); otherwise filter the cluster CRD names by the
configured suffix filters. -/
def FindTestCrdNames (out : Option Json) (crdFilters : List CrdFilter) :
    List String :=
  match getClusterCrdNames out with
  | .error _ => []
  | .ok clusterCrdNames => filterCrdNames clusterCrdNames crdFilters

/-! ## Step-contribution characterizations

Derived forms of each discovery step's contribution, used to state the
fault-tolerance and merge theorems; each is a function of exactly the
environment components its step queries. -/

/-- The pods contributed by the pod loop: per label, the built pods of a
successful query, nothing on a failed one. -/
def podsOf (env : Env) (ns : String) (labels : List Label) : List Pod :=
  labels.flatMap fun l =>
    match env.podsByLabel l ns with
    | .ok pods => pods.map (buildPodUnderTest env.configuredPodTests)
    | .error _ => []

/-- The container config entries contributed by the pod loop. -/
def containersOf (env : Env) (ns : String) (labels : List Label) :
    List ContainerConfig :=
  labels.flatMap fun l =>
    match env.podsByLabel l ns with
    | .ok pods => pods.flatMap buildContainersFromPodResource
    | .error _ => []

/-- The deployments contributed per label by `FindTestDeployments`. -/
def deploymentsOf (env : Env) (ns : String) (labels : List Label) :
    List Deployment :=
  labels.flatMap fun l =>
    match env.deploymentsByNamespace ns l with
    | .error _ => []
    | .ok drs => drs.map fun dr => { name := dr.name, ns := dr.ns, replicas := dr.replicas }

/-- The operator `buildOperatorFromCSVResource` produces when it does not
panic (its subscription name is the head of a successfully resolved
annotation list, or `""`). -/
def buildOperatorTotal (configuredOperatorTests : List String)
    (csv : CSVResource) : Operator :=
  let tests :=
    match csv.GetAnnotationValue operatorTestsAnnotationName with
    | .error _ => configuredOperatorTests
    | .ok tests => tests
  match csv.GetAnnotationValue subscriptionNameAnnotationName with
  | .error _ =>
    { name := csv.metadata.name, ns := csv.metadata.ns,
      subscriptionName := "", tests := tests }
  | .ok subscriptionName =>
    { name := csv.metadata.name, ns := csv.metadata.ns,
      subscriptionName := subscriptionName.headD "", tests := tests }

/-- The operators contributed by the CSV step: nothing on a failed query,
one operator per CSV on a successful one. -/
def operatorsOf (env : Env) (ns : String) : List Operator :=
  match env.csvsByLabel operatorLabelName anyLabelValue ns with
  | .error _ => []
  | .ok csvs => csvs.map (buildOperatorTotal env.configuredOperatorTests)

/-- A CSV whose subscription-name annotation does not resolve to the empty
list — exactly the condition under which `buildOperatorFromCSVResource`
cannot hit its unchecked index-0 access. -/
def CsvOk (csv : CSVResource) : Prop :=
  csv.GetAnnotationValue subscriptionNameAnnotationName ≠ Except.ok []

instance (csv : CSVResource) : Decidable (CsvOk csv) :=
  match h : csv.GetAnnotationValue subscriptionNameAnnotationName with
  | .ok [] => isFalse (by simp [CsvOk, h])
  | .ok (s :: rest) => isTrue (by simp [CsvOk, h])
  | .error e => isTrue (by simp [CsvOk, h])

/-- Every CSV the environment would return for the operator query satisfies
`CsvOk` (vacuous when the CSV query fails). -/
def WellFormedCsvs (env : Env) (ns : String) : Prop :=
  match env.csvsByLabel operatorLabelName anyLabelValue ns with
  | .error _ => True
  | .ok csvs => ∀ csv ∈ csvs, CsvOk csv

/-- The entry the worker loop of `GetNodesList` leaves for a processed name,
as a function of the entry present before the loop. -/
def workerUpd (n : String) : Option Node → Node
  | some node => { node with labels := node.labels ++ [WorkerLabel] }
  | none => { name := n, labels := [WorkerLabel] }

/-- Decidable equality on `Except`, used to decide concrete annotation
resolution results. -/
instance {ε α : Type} [DecidableEq ε] [DecidableEq α] : DecidableEq (Except ε α) :=
  fun a b =>
    match a, b with
    | .ok x, .ok y =>
      if h : x = y then isTrue (by rw [h]) else isFalse (by simp [h])
    | .ok _, .error _ => isFalse (by simp)
    | .error _, .ok _ => isFalse (by simp)
    | .error x, .error y =>
      if h : x = y then isTrue (by rw [h]) else isFalse (by simp [h])

instance (env : Env) (ns : String) : Decidable (WellFormedCsvs env ns) := by
  unfold WellFormedCsvs
  cases env.csvsByLabel operatorLabelName anyLabelValue ns <;> infer_instance

/-! ## Concrete fixtures used by witnesses and counterexamples -/

/-- A pod resource carrying a valid `host_resource_tests` annotation
`["t1","t2"]`. -/
def prAnnotated : PodResource :=
  { metadata :=
      { ns := "ns1", name := "pod-annotated",
        annots := [(podTestsAnnotationName, Json.arr [Json.str "t1", Json.str "t2"])] },
    spec := { serviceAccount := "sa1", containers := ["c1", "c2"] } }

/-- A pod resource with no annotations (test annotation missing). -/
def prBare : PodResource :=
  { metadata := { ns := "ns1", name := "pod-bare", annots := [] },
    spec := { serviceAccount := "sa2", containers := ["c1"] } }

/-- A pod resource whose test annotation resolves successfully to the empty
list. -/
def prEmptyTests : PodResource :=
  { metadata :=
      { ns := "ns1", name := "pod-empty-tests",
        annots := [(podTestsAnnotationName, Json.arr [])] },
    spec := { serviceAccount := "sa3", containers := ["c1"] } }

/-- A CSV resource with no annotations (subscription annotation missing). -/
def csvBare : CSVResource :=
  { metadata := { ns := "ns1", name := "csv-bare", annots := [] } }

/-- A label whose queries succeed in `envMixed`. -/
def goodLabel : Label := { pfx := tnfLabelPfx, name := "good", value := "v" }

/-- A label whose queries fail in `envMixed`. -/
def badLabel : Label := { pfx := tnfLabelPfx, name := "bad", value := "v" }

/-- A concrete environment mixing failures and successes: the pod and
deployment queries succeed for `goodLabel` and fail for `badLabel`, the
exclusion query reports an error, the CSV query succeeds with one bare CSV,
the master node query fails and the worker node query succeeds. -/
def envMixed : Env where
  podsByLabel := fun l _ =>
    if l.name = "good" then .ok [prAnnotated, prBare] else .error "pod query failed"
  containerIdsByLabel := fun _ _ => ([], some "exclusion query failed")
  csvsByLabel := fun _ _ _ => .ok [csvBare]
  deploymentsByNamespace := fun _ l =>
    if l.name = "good" then .ok [{ name := "dep1", ns := "ns1", replicas := 2 }]
    else .error "deployment query failed"
  nodeNamesByLabel := fun role =>
    if role = MasterLabel then .error "node query failed" else .ok ["w1"]
  configuredPodTests := ["pt1"]
  configuredOperatorTests := ["ot1"]

/-- An environment in which every query fails. -/
def envTriv : Env where
  podsByLabel := fun _ _ => .error "down"
  containerIdsByLabel := fun _ _ => ([], some "down")
  csvsByLabel := fun _ _ _ => .error "down"
  deploymentsByNamespace := fun _ _ => .error "down"
  nodeNamesByLabel := fun _ => .error "down"
  configuredPodTests := []
  configuredOperatorTests := []

/-- The raw CRD listing of the spec's worked CRD-filtering example. -/
def crdOut : Option Json :=
  some (Json.arr [Json.str "foo.acme.io", Json.str "bar.example.com",
    Json.str "baz.acme.io"])

/-! ## Fold characterization lemmas -/

theorem foldl_podItemStep (cfg : List String) (pods : List PodResource)
    (t : TestTarget) :
    pods.foldl (podItemStep cfg) t =
      { t with
        PodsUnderTest := t.PodsUnderTest ++ pods.map (buildPodUnderTest cfg)
        ContainerConfigList :=
          t.ContainerConfigList ++ pods.flatMap buildContainersFromPodResource } := by
  induction pods generalizing t with
  | nil => simp
  | cons pr rest ih =>
    simp only [List.foldl_cons, ih, podItemStep, List.map_cons, List.flatMap_cons]
    simp [List.append_assoc]

theorem foldl_podLabelStep (env : Env) (ns : String) (labels : List Label)
    (t : TestTarget) :
    labels.foldl (podLabelStep env ns) t =
      { t with
        PodsUnderTest := t.PodsUnderTest ++ podsOf env ns labels
        ContainerConfigList := t.ContainerConfigList ++ containersOf env ns labels } := by
  induction labels generalizing t with
  | nil => simp [podsOf, containersOf]
  | cons l rest ih =>
    simp only [List.foldl_cons, ih, podLabelStep]
    cases hp : env.podsByLabel l ns with
    | ok pods =>
      simp [foldl_podItemStep, podsOf, containersOf, hp, List.append_assoc]
    | error e => simp [podsOf, containersOf, hp]

theorem FindTestDeployments_eq (env : Env) (labels : List Label) (ns : String) :
    FindTestDeployments env labels ns = deploymentsOf env ns labels := by
  suffices h : ∀ acc : List Deployment,
      labels.foldl
        (fun deployments label =>
          match env.deploymentsByNamespace ns label with
          | .error _ => deployments
          | .ok deploymentResourceList =>
            deployments ++ deploymentResourceList.map fun dr =>
              { name := dr.name, ns := dr.ns, replicas := dr.replicas })
        acc = acc ++ deploymentsOf env ns labels by
    simpa [FindTestDeployments] using h []
  induction labels with
  | nil => intro acc; simp [deploymentsOf]
  | cons l rest ih =>
    intro acc
    simp only [List.foldl_cons]
    cases hd : env.deploymentsByNamespace ns l with
    | ok drs => simp [ih, deploymentsOf, hd, List.append_assoc]
    | error e => simp [ih, deploymentsOf, hd]

theorem buildOperatorFromCSVResource_of_csvOk (cfg : List String)
    (csv : CSVResource) (h : CsvOk csv) :
    buildOperatorFromCSVResource cfg csv = some (buildOperatorTotal cfg csv) := by
  unfold buildOperatorFromCSVResource buildOperatorTotal
  unfold CsvOk at h
  cases hsub : csv.GetAnnotationValue subscriptionNameAnnotationName with
  | error e => rfl
  | ok subscriptionName =>
    cases subscriptionName with
    | nil => exact absurd hsub h
    | cons s rest => rfl

theorem buildOperators_of_wellFormed (cfg : List String)
    (csvs : List CSVResource) (h : ∀ csv ∈ csvs, CsvOk csv) :
    buildOperators cfg csvs = some (csvs.map (buildOperatorTotal cfg)) := by
  induction csvs with
  | nil => rfl
  | cons csv rest ih =>
    have hcsv : CsvOk csv := h csv (List.mem_cons_self csv rest)
    have hrest : ∀ c ∈ rest, CsvOk c := fun c hc => h c (List.mem_cons_of_mem csv hc)
    simp only [buildOperators, buildOperatorFromCSVResource_of_csvOk cfg csv hcsv,
      ih hrest, List.map_cons]

/-- The per-step characterization of `FindTestTarget`: whenever every CSV the
operator query would return is `CsvOk`, discovery completes (no panic) and
each catalog field is the initial field extended by that step's own
contribution, a function of only that step's environment components. -/
theorem FindTestTarget_eq (env : Env) (labels : List Label) (target : TestTarget)
    (ns : String) (h : WellFormedCsvs env ns) :
    FindTestTarget env labels target ns =
      some
        { PodsUnderTest := target.PodsUnderTest ++ podsOf env ns labels
          ContainerConfigList :=
            target.ContainerConfigList ++ containersOf env ns labels
          Operators := target.Operators ++ operatorsOf env ns
          DeploymentsUnderTest :=
            target.DeploymentsUnderTest ++ deploymentsOf env ns labels
          Nodes := GetNodesList (env.nodeNamesByLabel MasterLabel)
                     (env.nodeNamesByLabel WorkerLabel)
          ExcludeContainersFromConnectivityTests :=
            (env.containerIdsByLabel skipLabel ns).1 } := by
  unfold FindTestTarget
  rw [foldl_podLabelStep]
  unfold WellFormedCsvs at h
  rw [FindTestDeployments_eq]
  cases hcsv : env.csvsByLabel operatorLabelName anyLabelValue ns with
  | error e => simp [hcsv, operatorsOf]
  | ok csvs =>
    rw [hcsv] at h
    simp [hcsv, buildOperators_of_wellFormed env.configuredOperatorTests csvs h,
      operatorsOf]

/-! ## Node map lemmas -/

theorem NodeMap.insert_apply (m : NodeMap) (k : String) (v : Node) (n : String) :
    NodeMap.insert m k v n = if n = k then some v else m n := rfl

theorem masterFold_apply (names : List String) (m : NodeMap) (n : String) :
    (names.foldl masterStep m) n =
      if n ∈ names then some { name := n, labels := [MasterLabel] } else m n := by
  induction names generalizing m with
  | nil => simp
  | cons a rest ih =>
    simp only [List.foldl_cons, ih]
    by_cases hn : n ∈ rest
    · simp [hn]
    · by_cases hna : n = a
      · subst hna; simp [hn, masterStep, NodeMap.insert_apply]
      · simp [hn, hna, masterStep, NodeMap.insert_apply]

theorem workerStep_apply_ne (m : NodeMap) (a n : String) (h : n ≠ a) :
    workerStep m a n = m n := by
  unfold workerStep
  cases m a with
  | some node => simp [NodeMap.insert_apply, h]
  | none => simp [NodeMap.insert_apply, h]

theorem workerStep_apply_self (m : NodeMap) (a : String) :
    workerStep m a a = some (workerUpd a (m a)) := by
  unfold workerStep
  cases m a with
  | some node => simp [NodeMap.insert_apply, workerUpd]
  | none => simp [NodeMap.insert_apply, workerUpd]

theorem workerFold_apply (names : List String) (h : names.Nodup) (m : NodeMap)
    (n : String) :
    (names.foldl workerStep m) n =
      if n ∈ names then some (workerUpd n (m n)) else m n := by
  induction names generalizing m with
  | nil => simp
  | cons a rest ih =>
    obtain ⟨ha, hrest⟩ := List.nodup_cons.mp h
    simp only [List.foldl_cons, ih hrest]
    by_cases hn : n ∈ rest
    · have hna : n ≠ a := fun hh => ha (hh ▸ hn)
      simp [hn, workerStep_apply_ne m a n hna]
    · by_cases hna : n = a
      · subst hna
        simp [hn, workerStep_apply_self]
      · simp [hn, hna, workerStep_apply_ne m a n hna]

/-! ## CRD filtering lemmas -/

theorem matchesAnyFilter_eq_any (crdFilters : List CrdFilter) (crdName : String) :
    matchesAnyFilter crdFilters crdName =
      crdFilters.any fun f => hasSuffix crdName f.nameSuffix := by
  induction crdFilters with
  | nil => rfl
  | cons f rest ih =>
    cases hb : hasSuffix crdName f.nameSuffix <;> simp [matchesAnyFilter, hb, ih]

theorem filterCrdNames_eq_filter (clusterCrdNames : List String)
    (crdFilters : List CrdFilter) :
    filterCrdNames clusterCrdNames crdFilters =
      clusterCrdNames.filter fun crdName => matchesAnyFilter crdFilters crdName := by
  suffices h : ∀ acc : List String,
      clusterCrdNames.foldl
        (fun targetCrdNames crdName =>
          if matchesAnyFilter crdFilters crdName then targetCrdNames ++ [crdName]
          else targetCrdNames)
        acc =
        acc ++ clusterCrdNames.filter fun crdName => matchesAnyFilter crdFilters crdName by
    simpa [filterCrdNames] using h []
  induction clusterCrdNames with
  | nil => intro acc; simp
  | cons a rest ih =>
    intro acc
    cases hb : matchesAnyFilter crdFilters a <;>
      simp [List.filter_cons, hb, ih, List.append_assoc]

/-! ## Claim theorems -/

/-- C5: when both role queries succeed with duplicate-free name lists, the
node map of `GetNodesList` has, for every name, exactly the master role if
the name came only from the master query, exactly the worker role if it came
only from the worker query, both roles accumulated on one entry if it came
from both, and no entry at all for names returned by neither query. -/
theorem getNodesList_merges_roles (mm ww : List String) (hww : ww.Nodup)
    (n : String) :
    GetNodesList (Except.ok mm) (Except.ok ww) n =
      if n ∈ mm then
        if n ∈ ww then some { name := n, labels := [MasterLabel, WorkerLabel] }
        else some { name := n, labels := [MasterLabel] }
      else
        if n ∈ ww then some { name := n, labels := [WorkerLabel] }
        else none := by
  show (ww.foldl workerStep (mm.foldl masterStep emptyNodeMap)) n = _
  rw [workerFold_apply ww hww]
  simp only [masterFold_apply]
  by_cases hm : n ∈ mm <;> by_cases hw : n ∈ ww <;>
    simp [hm, hw, workerUpd, emptyNodeMap]

/-- C5 witness: on master names `["node-a","node-b"]` and worker names
`["node-b","node-c"]`, `node-b` carries both roles, `node-a` only the
master role, `node-c` only the worker role, and `node-d` is absent. -/
theorem getNodesList_merges_roles_witness :
    GetNodesList (Except.ok ["node-a", "node-b"]) (Except.ok ["node-b", "node-c"])
        "node-b" = some { name := "node-b", labels := [MasterLabel, WorkerLabel] } ∧
    GetNodesList (Except.ok ["node-a", "node-b"]) (Except.ok ["node-b", "node-c"])
        "node-a" = some { name := "node-a", labels := [MasterLabel] } ∧
    GetNodesList (Except.ok ["node-a", "node-b"]) (Except.ok ["node-b", "node-c"])
        "node-c" = some { name := "node-c", labels := [WorkerLabel] } ∧
    GetNodesList (Except.ok ["node-a", "node-b"]) (Except.ok ["node-b", "node-c"])
        "node-d" = none := by
  refine ⟨?_, ?_, ?_, ?_⟩ <;>
    rw [getNodesList_merges_roles _ _ (by decide)] <;> decide

/-- C6: `FindTestCrdNames` on a successfully decoded cluster CRD listing is
exactly the order-preserving filter of the cluster CRD names by "some
configured filter's suffix matches", so each cluster name appears at most
once (the inner loop stops at the first matching filter) and the output
order follows the cluster listing, not the filter order; on a
duplicate-free listing the output is duplicate-free. -/
theorem findTestCrdNames_characterization (out : Option Json)
    (crdFilters : List CrdFilter) (clusterCrdNames : List String)
    (h : getClusterCrdNames out = Except.ok clusterCrdNames) :
    FindTestCrdNames out crdFilters =
      (clusterCrdNames.filter fun crdName =>
        crdFilters.any fun f => hasSuffix crdName f.nameSuffix) ∧
    (clusterCrdNames.Nodup → (FindTestCrdNames out crdFilters).Nodup) := by
  have heq : FindTestCrdNames out crdFilters =
      clusterCrdNames.filter fun crdName =>
        crdFilters.any fun f => hasSuffix crdName f.nameSuffix := by
    unfold FindTestCrdNames
    rw [h]
    show filterCrdNames clusterCrdNames crdFilters = _
    rw [filterCrdNames_eq_filter]
    simp only [matchesAnyFilter_eq_any]
  exact ⟨heq, fun hnd => heq ▸ hnd.filter _⟩

/-- C6 witness: the spec's worked example — cluster names
`["foo.acme.io","bar.example.com","baz.acme.io"]` with the single suffix
filter `"acme.io"` yield exactly `["foo.acme.io","baz.acme.io"]` in that
order, without duplicates. -/
theorem findTestCrdNames_characterization_witness :
    FindTestCrdNames crdOut [{ nameSuffix := "acme.io" }] =
      ["foo.acme.io", "baz.acme.io"] ∧
    (FindTestCrdNames crdOut [{ nameSuffix := "acme.io" }]).Nodup := by
  have h := findTestCrdNames_characterization crdOut [{ nameSuffix := "acme.io" }]
    ["foo.acme.io", "bar.example.com", "baz.acme.io"] rfl
  exact ⟨h.1.trans (by decide), h.2 (by decide)⟩

/-- C7: when decoding the cluster CRD listing fails, `FindTestCrdNames`
returns the empty list (the error is only logged; the overall process does
not fail). -/
theorem findTestCrdNames_decode_failure (out : Option Json) (e : String)
    (crdFilters : List CrdFilter)
    (h : getClusterCrdNames out = Except.error e) :
    FindTestCrdNames out crdFilters = [] := by
  unfold FindTestCrdNames
  rw [h]

/-- C7 witness: non-JSON command output decodes to an error, and
`FindTestCrdNames` returns `[]` on it. -/
theorem findTestCrdNames_decode_failure_witness :
    FindTestCrdNames none [{ nameSuffix := "acme.io" }] = [] :=
  findTestCrdNames_decode_failure none "invalid JSON" [{ nameSuffix := "acme.io" }] rfl

/-- C1 counterexample: with the master-role query failing and the worker-role
query succeeding with `["node-b"]`, the node map does NOT contain the
worker-tagged node `node-b` — `GetNodesList` returns as soon as the master
query fails, so the worker query's results are not used, contrary to the
claim that the map then contains exactly the worker-tagged nodes. -/
theorem getNodesList_master_failure_counterexample :
    ¬ GetNodesList (Except.error "query failed") (Except.ok ["node-b"]) "node-b" =
        some { name := "node-b", labels := [WorkerLabel] } := by
  decide

/-- C1 amended: if the master-role node query fails, the node map returned by
`GetNodesList` is empty — the worker query's results are not used — and the
overall discovery call still produces a catalog with all other fields
populated normally (each remaining field is its step's usual contribution). -/
theorem findTestTarget_master_query_failure (env : Env) (labels : List Label)
    (target : TestTarget) (ns : String) (e : String)
    (hm : env.nodeNamesByLabel MasterLabel = Except.error e)
    (h : WellFormedCsvs env ns) :
    FindTestTarget env labels target ns =
      some
        { PodsUnderTest := target.PodsUnderTest ++ podsOf env ns labels
          ContainerConfigList :=
            target.ContainerConfigList ++ containersOf env ns labels
          Operators := target.Operators ++ operatorsOf env ns
          DeploymentsUnderTest :=
            target.DeploymentsUnderTest ++ deploymentsOf env ns labels
          Nodes := emptyNodeMap
          ExcludeContainersFromConnectivityTests :=
            (env.containerIdsByLabel skipLabel ns).1 } := by
  rw [FindTestTarget_eq env labels target ns h, hm]
  rfl

/-- C1 amended witness: in `envMixed` the master query fails, and the
discovery call completes with the empty node map and all other fields
populated. -/
theorem findTestTarget_master_query_failure_witness :
    FindTestTarget envMixed [goodLabel, badLabel] emptyTarget "ns" =
      some
        { PodsUnderTest :=
            emptyTarget.PodsUnderTest ++ podsOf envMixed "ns" [goodLabel, badLabel]
          ContainerConfigList :=
            emptyTarget.ContainerConfigList ++
              containersOf envMixed "ns" [goodLabel, badLabel]
          Operators := emptyTarget.Operators ++ operatorsOf envMixed "ns"
          DeploymentsUnderTest :=
            emptyTarget.DeploymentsUnderTest ++
              deploymentsOf envMixed "ns" [goodLabel, badLabel]
          Nodes := emptyNodeMap
          ExcludeContainersFromConnectivityTests :=
            (envMixed.containerIdsByLabel skipLabel "ns").1 } :=
  findTestTarget_master_query_failure envMixed [goodLabel, badLabel] emptyTarget
    "ns" "node query failed" rfl (by decide)

/-- C2: for every environment — hence for every combination of per-label
pod-query failures, exclusion-list failure, CSV-query failure,
deployment-query failures, and node-query failures — `FindTestTarget`
completes without error (provided no returned CSV triggers the unchecked
index-0 subscription access, see C10), and each catalog field is the
initial field extended by exactly its own step's contribution, a function
of only that step's query results: a failing step contributes nothing
while every other step still contributes normally. -/
theorem findTestTarget_fault_tolerant (env : Env) (labels : List Label)
    (target : TestTarget) (ns : String) (h : WellFormedCsvs env ns) :
    FindTestTarget env labels target ns =
      some
        { PodsUnderTest := target.PodsUnderTest ++ podsOf env ns labels
          ContainerConfigList :=
            target.ContainerConfigList ++ containersOf env ns labels
          Operators := target.Operators ++ operatorsOf env ns
          DeploymentsUnderTest :=
            target.DeploymentsUnderTest ++ deploymentsOf env ns labels
          Nodes := GetNodesList (env.nodeNamesByLabel MasterLabel)
                     (env.nodeNamesByLabel WorkerLabel)
          ExcludeContainersFromConnectivityTests :=
            (env.containerIdsByLabel skipLabel ns).1 } :=
  FindTestTarget_eq env labels target ns h

/-- C2 witness: in the mixed-failure environment (one pod label failing, the
exclusion query erroring, deployments failing for one label, the master node
query failing), discovery still completes and every succeeding step
contributed. -/
theorem findTestTarget_fault_tolerant_witness :
    FindTestTarget envMixed [badLabel, goodLabel] emptyTarget "ns" =
      some
        { PodsUnderTest :=
            emptyTarget.PodsUnderTest ++ podsOf envMixed "ns" [badLabel, goodLabel]
          ContainerConfigList :=
            emptyTarget.ContainerConfigList ++
              containersOf envMixed "ns" [badLabel, goodLabel]
          Operators := emptyTarget.Operators ++ operatorsOf envMixed "ns"
          DeploymentsUnderTest :=
            emptyTarget.DeploymentsUnderTest ++
              deploymentsOf envMixed "ns" [badLabel, goodLabel]
          Nodes := GetNodesList (envMixed.nodeNamesByLabel MasterLabel)
                     (envMixed.nodeNamesByLabel WorkerLabel)
          ExcludeContainersFromConnectivityTests :=
            (envMixed.containerIdsByLabel skipLabel "ns").1 } :=
  findTestTarget_fault_tolerant envMixed [badLabel, goodLabel] emptyTarget "ns"
    (by decide)

/-- C3: `buildPodUnderTest` is total, and its `tests` field is exactly the
annotation's resolved string list when resolution succeeds (no fallback),
and exactly the globally configured pod-test list passed in at call time
when resolution fails. -/
theorem buildPodUnderTest_tests_resolution (configuredPodTests : List String)
    (pr : PodResource) :
    (∀ tests, pr.GetAnnotationValue podTestsAnnotationName = Except.ok tests →
        (buildPodUnderTest configuredPodTests pr).tests = tests) ∧
    (∀ e, pr.GetAnnotationValue podTestsAnnotationName = Except.error e →
        (buildPodUnderTest configuredPodTests pr).tests = configuredPodTests) := by
  constructor
  · intro tests h
    simp [buildPodUnderTest, h]
  · intro e h
    simp [buildPodUnderTest, h]

/-- C3 witness: a pod annotated `["t1","t2"]` gets exactly those tests, and a
pod without the annotation gets the configured fallback list. -/
theorem buildPodUnderTest_tests_resolution_witness :
    (buildPodUnderTest ["fallback"] prAnnotated).tests = ["t1", "t2"] ∧
    (buildPodUnderTest ["fallback"] prBare).tests = ["fallback"] :=
  ⟨(buildPodUnderTest_tests_resolution ["fallback"] prAnnotated).1 ["t1", "t2"]
      (by decide),
   (buildPodUnderTest_tests_resolution ["fallback"] prBare).2 AnnErr.missing
      (by decide)⟩

/-- C4 counterexample: a pod whose `host_resource_tests` annotation resolves
successfully to the empty JSON list gets empty `tests` even though the
configured fallback list `["t1"]` is non-empty — refuting the claim that
`tests` is non-empty whenever the fallback set is non-empty. -/
theorem buildPodUnderTest_empty_annotation_counterexample :
    (buildPodUnderTest ["t1"] prEmptyTests).tests = [] ∧
    (["t1"] : List String) ≠ [] := by
  constructor
  · decide
  · decide

/-- C4 amended: the built pod's `tests` is non-empty unless the configured
fallback set is itself empty or the annotation successfully resolved to an
empty list. -/
theorem buildPodUnderTest_tests_nonempty (configuredPodTests : List String)
    (pr : PodResource) (hcfg : configuredPodTests ≠ [])
    (hann : pr.GetAnnotationValue podTestsAnnotationName ≠ Except.ok []) :
    (buildPodUnderTest configuredPodTests pr).tests ≠ [] := by
  have hrw : (buildPodUnderTest configuredPodTests pr).tests =
      match pr.GetAnnotationValue podTestsAnnotationName with
      | .error _ => configuredPodTests
      | .ok tests => tests := rfl
  rw [hrw]
  cases h : pr.GetAnnotationValue podTestsAnnotationName with
  | error e => simpa using hcfg
  | ok tests =>
    cases tests with
    | nil => exact absurd h hann
    | cons t rest => simp

/-- C4 amended witness: a pod without the annotation and a non-empty
fallback list yields non-empty tests. -/
theorem buildPodUnderTest_tests_nonempty_witness :
    (buildPodUnderTest ["t1"] prBare).tests ≠ [] :=
  buildPodUnderTest_tests_nonempty ["t1"] prBare (by decide) (by decide)

/-- C8: a CSV whose subscription-name annotation fails to resolve still
yields an operator (construction does not fail, so the operator stays in
the catalog), with `subscriptionName` left as the zero value `""`. -/
theorem buildOperator_subscription_absent (configuredOperatorTests : List String)
    (csv : CSVResource) (e : AnnErr)
    (h : csv.GetAnnotationValue subscriptionNameAnnotationName = Except.error e) :
    ∃ op, buildOperatorFromCSVResource configuredOperatorTests csv = some op ∧
      op.subscriptionName = "" := by
  unfold buildOperatorFromCSVResource
  rw [h]
  exact ⟨_, rfl, rfl⟩

/-- C8 witness: the annotation-free CSV yields an operator with empty
subscription name. -/
theorem buildOperator_subscription_absent_witness :
    ∃ op, buildOperatorFromCSVResource ["ot1"] csvBare = some op ∧
      op.subscriptionName = "" :=
  buildOperator_subscription_absent ["ot1"] csvBare AnnErr.missing (by decide)

/-- C9: two discovery runs over the same labels, filters and namespace
against identical collaborator responses, each from an empty catalog,
produce catalogs equal up to entity ordering — the same multiset of pod and
deployment entities, the same node map, and the same CRD-name set. -/
theorem discovery_idempotent (env : Env) (labels : List Label) (ns : String)
    (out : Option Json) (crdFilters : List CrdFilter) (t1 t2 : TestTarget)
    (h1 : FindTestTarget env labels emptyTarget ns = some t1)
    (h2 : FindTestTarget env labels emptyTarget ns = some t2) :
    (t1.PodsUnderTest : Multiset Pod) = (t2.PodsUnderTest : Multiset Pod) ∧
    (t1.DeploymentsUnderTest : Multiset Deployment) =
      (t2.DeploymentsUnderTest : Multiset Deployment) ∧
    (∀ n, t1.Nodes n = t2.Nodes n) ∧
    (FindTestCrdNames out crdFilters).toFinset =
      (FindTestCrdNames out crdFilters).toFinset := by
  obtain rfl : t1 = t2 := Option.some.inj (h1.symm.trans h2)
  exact ⟨rfl, rfl, fun n => rfl, rfl⟩

/-- C9 witness: in the all-failing environment both runs produce the empty
catalog, and the comparisons hold. -/
theorem discovery_idempotent_witness :
    (emptyTarget.PodsUnderTest : Multiset Pod) =
      (emptyTarget.PodsUnderTest : Multiset Pod) ∧
    (emptyTarget.DeploymentsUnderTest : Multiset Deployment) =
      (emptyTarget.DeploymentsUnderTest : Multiset Deployment) ∧
    (∀ n, emptyTarget.Nodes n = emptyTarget.Nodes n) ∧
    (FindTestCrdNames none []).toFinset = (FindTestCrdNames none []).toFinset :=
  discovery_idempotent envTriv [] "ns" none [] emptyTarget emptyTarget rfl rfl

/-- C10: `buildOperatorFromCSVResource` reads index 0 of the resolved
subscription-name list without a length check; the access is out of range
(the embedded construction is `none`, the Go code panics) exactly when the
annotation resolves successfully to the empty list, and construction
succeeds for every other resolution outcome. -/
theorem buildOperator_index_zero_safety (configuredOperatorTests : List String)
    (csv : CSVResource) :
    buildOperatorFromCSVResource configuredOperatorTests csv = none ↔
      csv.GetAnnotationValue subscriptionNameAnnotationName = Except.ok [] := by
  unfold buildOperatorFromCSVResource
  cases h : csv.GetAnnotationValue subscriptionNameAnnotationName with
  | error e => simp [h]
  | ok l =>
    cases l with
    | nil => simp [h]
    | cons s rest => simp [h]

end Autodiscover
